import Mathlib

/-!
Verification of the reconciliation and aggregation engine of the hub server.

The definitions below are shallow embeddings of the Rust source:

* database tables are lists of row structures, timestamps are integers
  (seconds since the UTC epoch; SQLite datetime strings are a monotone
  encoding of these),
* SQL statements become pure functions on those lists,
* the JSON-encoded building/fleet/defense/resource columns are kept as
  association lists (the serialization codec at the storage boundary is not
  modelled),
* machine integers (`i64`) are modelled as `Int`; the Rust `/` on `i64`
  truncates towards zero, which is `Int.tdiv`.

Each claim theorem states the property of the spec over these embeddings.
-/

namespace Hub

/-! ### Distance calculation (src/api/handlers/players.rs, `calculate_distance`) -/

/-- Distance between two coordinate triples, piecewise by which component
differs first, mirroring the Rust `calculate_distance`. -/
def calculate_distance (from_galaxy from_system from_planet to_galaxy to_system to_planet : Int) :
    Int :=
  if from_galaxy ≠ to_galaxy then
    |from_galaxy - to_galaxy| * 20000
  else if from_system ≠ to_system then
    2700 + 95 * |from_system - to_system|
  else if from_planet ≠ to_planet then
    1000 + 5 * |from_planet - to_planet|
  else
    5

/-! ### Sync freshness window (src/api/handlers/hub.rs, `get_stat_view`) -/

/-- Start of the current fixed 6-hour window, mirroring `get_stat_view`:
`current_hour = now.time().hour()`, `window_start_hour = (current_hour / 6) * 6`,
window start is today at `window_start_hour:00:00`.  Time is in seconds since
the UTC epoch (so a day is 86400 s and an hour 3600 s). -/
def stat_window_start (now : Nat) : Nat :=
  let current_hour := now % 86400 / 3600
  let window_start_hour := current_hour / 6 * 6
  now - now % 86400 + window_start_hour * 3600

/-- `is_synced` of one stat view row: true iff a last-sync timestamp is
recorded (and parseable, which the `Option` models) and lies at or after the
start of the current 6-hour window. -/
def is_synced (now : Nat) (last_sync_at : Option Nat) : Bool :=
  match last_sync_at with
  | none => false
  | some dt => decide (stat_window_start now ≤ dt)

/-! ### Score-delta computation (src/api/handlers/hub.rs, `get_overview`) -/

/-- One row of the append-only `player_scores` history table. -/
structure PlayerScore where
  player_id : Int
  score_total : Int
  rank_total : Int
  recorded_at : Int
deriving Repr, DecidableEq

/-- The per-window correlated subquery of `get_overview`:
`SELECT ps.score_total FROM player_scores ps WHERE ps.player_id = ? AND
ps.recorded_at <= cutoff ORDER BY ps.recorded_at DESC LIMIT 1`. -/
def score_at_or_before (history : List PlayerScore) (pid cutoff : Int) : Option Int :=
  ((history.filter fun s => s.player_id == pid && decide (s.recorded_at ≤ cutoff)).argmax
    (fun s => s.recorded_at)).map (fun s => s.score_total)

/-- The delta computation of `get_overview` for one lookback window `w`:
`Some (curr - old)` when both the current total and the historical row exist,
`None` otherwise. -/
def overview_diff (score_total : Option Int) (history : List PlayerScore) (pid now w : Int) :
    Option Int :=
  match score_total, score_at_or_before history pid (now - w) with
  | some curr, some old => some (curr - old)
  | _, _ => none

theorem overview_diff_eq_some_iff (cur : Option Int) (history : List PlayerScore)
    (pid now w d : Int) :
    overview_diff cur history pid now w = some d ↔
      ∃ c o, cur = some c ∧ score_at_or_before history pid (now - w) = some o ∧ d = c - o := by
  cases cur with
  | none => simp [overview_diff]
  | some c =>
    cases h : score_at_or_before history pid (now - w) with
    | none => simp [overview_diff, h]
    | some o =>
      simp only [overview_diff, h, Option.some.injEq]
      constructor
      · rintro rfl
        exact ⟨c, o, rfl, rfl, rfl⟩
      · rintro ⟨c2, o2, hc, ho, rfl⟩
        cases hc
        cases ho
        rfl

theorem score_at_or_before_some_iff (history : List PlayerScore) (pid cutoff : Int)
    (hdist : ∀ s1 ∈ history, ∀ s2 ∈ history, s1.player_id = pid → s2.player_id = pid →
      s1.recorded_at = s2.recorded_at → s1 = s2) (o : Int) :
    score_at_or_before history pid cutoff = some o ↔
      ∃ s, s ∈ history ∧ s.player_id = pid ∧ s.recorded_at ≤ cutoff ∧
        (∀ s2 ∈ history, s2.player_id = pid → s2.recorded_at ≤ cutoff →
          s2.recorded_at ≤ s.recorded_at) ∧ o = s.score_total := by
  unfold score_at_or_before
  constructor
  · intro h
    rcases Option.map_eq_some'.mp h with ⟨m, hm, rfl⟩
    have hmem := List.argmax_mem hm
    rw [List.mem_filter] at hmem
    obtain ⟨hmemh, hpred⟩ := hmem
    have hpid : m.player_id = pid := by
      have := (Bool.and_eq_true _ _).mp hpred |>.1
      exact beq_iff_eq.mp this
    have hcut : m.recorded_at ≤ cutoff := by
      have := (Bool.and_eq_true _ _).mp hpred |>.2
      exact of_decide_eq_true this
    refine ⟨m, hmemh, hpid, hcut, ?_, rfl⟩
    intro s2 hs2 hs2pid hs2cut
    have hs2f : s2 ∈ history.filter
        fun s => s.player_id == pid && decide (s.recorded_at ≤ cutoff) := by
      rw [List.mem_filter]
      exact ⟨hs2, by simp [hs2pid, hs2cut]⟩
    exact List.le_of_mem_argmax hs2f hm
  · rintro ⟨s, hmem, hpid, hcut, hmax, rfl⟩
    have hsf : s ∈ history.filter
        fun s => s.player_id == pid && decide (s.recorded_at ≤ cutoff) := by
      rw [List.mem_filter]
      exact ⟨hmem, by simp [hpid, hcut]⟩
    have hne : history.filter
        (fun s => s.player_id == pid && decide (s.recorded_at ≤ cutoff)) ≠ [] :=
      List.ne_nil_of_mem hsf
    cases hm : (history.filter
        fun s => s.player_id == pid && decide (s.recorded_at ≤ cutoff)).argmax
        (fun s => s.recorded_at) with
    | none => exact absurd (List.argmax_eq_none.mp hm) hne
    | some m =>
      have hmm : m ∈ (history.filter
          fun s => s.player_id == pid && decide (s.recorded_at ≤ cutoff)).argmax
          (fun s => s.recorded_at) := hm
      have hmemm := List.argmax_mem hmm
      rw [List.mem_filter] at hmemm
      obtain ⟨hmemm, hpredm⟩ := hmemm
      have hpidm : m.player_id = pid := beq_iff_eq.mp ((Bool.and_eq_true _ _).mp hpredm).1
      have hcutm : m.recorded_at ≤ cutoff :=
        of_decide_eq_true ((Bool.and_eq_true _ _).mp hpredm).2
      have h1 : s.recorded_at ≤ m.recorded_at := List.le_of_mem_argmax hsf hmm
      have h2 : m.recorded_at ≤ s.recorded_at := hmax m hmemm hpidm hcutm
      have : m = s := hdist m hmemm s hmem hpidm hpid (le_antisymm h2 h1)
      subst this
      simp [hm]

theorem score_at_or_before_none_iff (history : List PlayerScore) (pid cutoff : Int) :
    score_at_or_before history pid cutoff = none ↔
      ∀ s ∈ history, s.player_id = pid → ¬ s.recorded_at ≤ cutoff := by
  unfold score_at_or_before
  rw [Option.map_eq_none', List.argmax_eq_none, List.filter_eq_nil_iff]
  constructor
  · intro h s hs hpid hcut
    exact absurd (by simp [hpid, hcut]) (h s hs)
  · intro h s hs
    simp only [Bool.and_eq_true, beq_iff_eq, decide_eq_true_eq, not_and]
    intro hpid
    exact fun hc => h s hs hpid hc

/-- C1: for every player and lookback window, the overview score delta is the
current total minus the total of the most recent snapshot recorded at or
before `now - w`; it is `none` (never zero) when the current total is absent
or no snapshot is old enough.  With snapshots at `t-30h` (total 100) and
`t-2h` (total 100) and current total 150, the 24h delta is 50 (the row at
`t-30h` is selected).  The snapshot-distinctness hypothesis reflects that
history rows of one player are recorded at distinct sync times. -/
theorem get_overview_diff_spec :
    (∀ (cur : Option Int) (history : List PlayerScore) (pid now w d : Int),
      (∀ s1 ∈ history, ∀ s2 ∈ history, s1.player_id = pid → s2.player_id = pid →
        s1.recorded_at = s2.recorded_at → s1 = s2) →
      (overview_diff cur history pid now w = some d ↔
        ∃ c s, cur = some c ∧ s ∈ history ∧ s.player_id = pid ∧ s.recorded_at ≤ now - w ∧
          (∀ s2 ∈ history, s2.player_id = pid → s2.recorded_at ≤ now - w →
            s2.recorded_at ≤ s.recorded_at) ∧ d = c - s.score_total)) ∧
    (∀ (cur : Option Int) (history : List PlayerScore) (pid now w : Int),
      overview_diff cur history pid now w = none ↔
        cur = none ∨ ∀ s ∈ history, s.player_id = pid → ¬ s.recorded_at ≤ now - w) ∧
    overview_diff (some 150) [⟨7, 100, 9, 0⟩, ⟨7, 100, 9, 100800⟩] 7 108000 86400 = some 50 := by
  refine ⟨?_, ?_, by decide⟩
  · intro cur history pid now w d hdist
    rw [overview_diff_eq_some_iff]
    constructor
    · rintro ⟨c, o, hc, ho, rfl⟩
      rcases (score_at_or_before_some_iff history pid (now - w) hdist o).mp ho with
        ⟨s, hmem, hpid, hcut, hmax, rfl⟩
      exact ⟨c, s, hc, hmem, hpid, hcut, hmax, rfl⟩
    · rintro ⟨c, s, hc, hmem, hpid, hcut, hmax, rfl⟩
      exact ⟨c, s.score_total, hc,
        (score_at_or_before_some_iff history pid (now - w) hdist s.score_total).mpr
          ⟨s, hmem, hpid, hcut, hmax, rfl⟩, rfl⟩
  · intro cur history pid now w
    cases cur with
    | none => simp [overview_diff]
    | some c =>
      cases h : score_at_or_before history pid (now - w) with
      | none =>
        simp only [overview_diff, h]
        rw [← score_at_or_before_none_iff history pid (now - w)]
        simp [h]
      | some o =>
        simp only [overview_diff, h]
        rw [← score_at_or_before_none_iff history pid (now - w)]
        simp [h]

/-- Witness for `get_overview_diff_spec` at the spec's own concrete history. -/
theorem get_overview_diff_spec_witness :
    ∃ c s, (some 150 : Option Int) = some c ∧
      s ∈ [PlayerScore.mk 7 100 9 0, PlayerScore.mk 7 100 9 100800] ∧ s.player_id = 7 ∧
      s.recorded_at ≤ 108000 - 86400 ∧
      (∀ s2 ∈ [PlayerScore.mk 7 100 9 0, PlayerScore.mk 7 100 9 100800],
        s2.player_id = 7 → s2.recorded_at ≤ 108000 - 86400 → s2.recorded_at ≤ s.recorded_at) ∧
      (50 : Int) = c - s.score_total :=
  (get_overview_diff_spec.1 (some 150) [⟨7, 100, 9, 0⟩, ⟨7, 100, 9, 100800⟩] 7 108000 86400 50
    (by decide)).mp get_overview_diff_spec.2.2

/-- C5: the distance function is `20000·|Δgalaxy|` across galaxies,
`2700 + 95·|Δsystem|` within a galaxy, `1000 + 5·|Δposition|` within a system,
and the constant 5 for identical triples, with the spec's four sample
values. -/
theorem calculate_distance_spec :
    (∀ fg fs fp tg ts tp : Int,
      (fg ≠ tg → calculate_distance fg fs fp tg ts tp = 20000 * |fg - tg|) ∧
      (fg = tg → fs ≠ ts → calculate_distance fg fs fp tg ts tp = 2700 + 95 * |fs - ts|) ∧
      (fg = tg → fs = ts → fp ≠ tp → calculate_distance fg fs fp tg ts tp = 1000 + 5 * |fp - tp|) ∧
      (fg = tg → fs = ts → fp = tp → calculate_distance fg fs fp tg ts tp = 5)) ∧
    calculate_distance 1 5 3 2 5 3 = 20000 ∧
    calculate_distance 1 5 3 1 8 3 = 2985 ∧
    calculate_distance 1 5 3 1 5 7 = 1020 ∧
    calculate_distance 1 5 3 1 5 3 = 5 := by
  refine ⟨?_, by decide, by decide, by decide, by decide⟩
  intro fg fs fp tg ts tp
  refine ⟨fun h => ?_, fun h1 h2 => ?_, fun h1 h2 h3 => ?_, fun h1 h2 h3 => ?_⟩
  · simp [calculate_distance, h]
    ring
  · simp [calculate_distance, h1, h2]
  · simp [calculate_distance, h1, h2, h3]
  · simp [calculate_distance, h1, h2, h3]

/-- Witness for `calculate_distance_spec`: the cross-galaxy case at the spec's
sample input. -/
theorem calculate_distance_spec_witness :
    (1 : Int) ≠ 2 ∧ calculate_distance 1 5 3 2 5 3 = 20000 * |(1 : Int) - 2| :=
  ⟨by decide, (calculate_distance_spec.1 1 5 3 2 5 3).1 (by decide)⟩

/-- C9: a periodic sync is reported current exactly when its last-recorded
timestamp falls in the same fixed 6-hour bucket (buckets start at UTC hours
0, 6, 12 and 18, i.e. at multiples of 21600 s) as the current time; a missing
timestamp is never current.  The hypothesis `ts ≤ now` reflects that the
timestamp was recorded before the view is computed.  The concrete conjunct is
the spec's example: a sync 3600 s (1 h) ago that lies before the current
bucket's start is not current. -/
theorem get_stat_view_sync_spec :
    (∀ now ts : Nat, ts ≤ now →
      (is_synced now (some ts) = true ↔ ts / 21600 = now / 21600)) ∧
    (∀ now : Nat, is_synced now none = false) ∧
    is_synced 22000 (some 18400) = false := by
  refine ⟨?_, fun now => rfl, by decide⟩
  intro now ts hts
  simp only [is_synced, decide_eq_true_eq, stat_window_start]
  omega

/-- Witness for `get_stat_view_sync_spec`: at `now = 22000`, a sync recorded
at 18400 (one hour earlier, previous bucket) is not in the same bucket. -/
theorem get_stat_view_sync_spec_witness :
    (18400 ≤ 22000) ∧ ((is_synced 22000 (some 18400) = true) ↔ 18400 / 21600 = 22000 / 21600) :=
  ⟨by decide, get_stat_view_sync_spec.1 22000 18400 (by decide)⟩

/-! ### Activity statistics (src/api/handlers/hub.rs, `get_expo_stats`,
`get_raid_stats`, `get_recycle_stats`) -/

/-- One row of `expedition_reports` as read by `get_expo_stats`: the reporter,
the ingestion timestamp and the JSON resources map (keys `"901"`, `"902"`,
`"903"` are metal, crystal, deuterium; `json_extract` of a missing key is
`NULL`, modelled by the association-list lookup defaulting to 0 under the
surrounding `SUM`/`COALESCE`). -/
structure ExpeditionReport where
  reported_by : Int
  created_at : Int
  resources : List (String × Int)
deriving Repr, DecidableEq

/-- One row of `battle_reports` as read by `get_raid_stats`. -/
structure BattleReport where
  reported_by : Int
  created_at : Int
  metal : Int
  crystal : Int
  deuterium : Int
deriving Repr, DecidableEq

/-- One row of `recycle_reports` as read by `get_recycle_stats`. -/
structure RecycleReport where
  reported_by : Int
  created_at : Int
  metal : Int
  crystal : Int
deriving Repr, DecidableEq

/-- The `ActivityStats` response struct (src/api/response.rs). -/
structure ActivityStats where
  count : Int
  count_24h : Int
  metal : Int
  crystal : Int
  deuterium : Int
  points : Int
deriving Repr, DecidableEq

/-- `get_expo_stats`: one aggregate query over `expedition_reports` rows of
one reporter, optionally restricted to the last 24 hours (86400 s), counting
all selected rows, counting those inside the last 24 hours, summing the three
resource keys, and deriving `points = (metal + crystal + deuterium) / 1000`
(Rust `i64` division, i.e. `Int.tdiv`). -/
def get_expo_stats (reports : List ExpeditionReport) (now user_id : Int) (last_24h : Bool) :
    ActivityStats :=
  let rows := reports.filter fun r =>
    r.reported_by == user_id && (!last_24h || decide (r.created_at > now - 86400))
  let metal := (rows.map fun r => (r.resources.lookup "901").getD 0).sum
  let crystal := (rows.map fun r => (r.resources.lookup "902").getD 0).sum
  let deuterium := (rows.map fun r => (r.resources.lookup "903").getD 0).sum
  { count := (rows.length : Int)
    count_24h := ((rows.filter fun r => decide (r.created_at > now - 86400)).length : Int)
    metal := metal
    crystal := crystal
    deuterium := deuterium
    points := (metal + crystal + deuterium).tdiv 1000 }

/-- `get_raid_stats`: as `get_expo_stats` but over `battle_reports`, whose
resource sums come from dedicated columns. -/
def get_raid_stats (reports : List BattleReport) (now user_id : Int) (last_24h : Bool) :
    ActivityStats :=
  let rows := reports.filter fun r =>
    r.reported_by == user_id && (!last_24h || decide (r.created_at > now - 86400))
  let metal := (rows.map fun r => r.metal).sum
  let crystal := (rows.map fun r => r.crystal).sum
  let deuterium := (rows.map fun r => r.deuterium).sum
  { count := (rows.length : Int)
    count_24h := ((rows.filter fun r => decide (r.created_at > now - 86400)).length : Int)
    metal := metal
    crystal := crystal
    deuterium := deuterium
    points := (metal + crystal + deuterium).tdiv 1000 }

/-- `get_recycle_stats`: as `get_expo_stats` but over `recycle_reports`,
summing only metal and crystal; deuterium is reported as 0 and omitted from
`points = (metal + crystal) / 1000`. -/
def get_recycle_stats (reports : List RecycleReport) (now user_id : Int) (last_24h : Bool) :
    ActivityStats :=
  let rows := reports.filter fun r =>
    r.reported_by == user_id && (!last_24h || decide (r.created_at > now - 86400))
  let metal := (rows.map fun r => r.metal).sum
  let crystal := (rows.map fun r => r.crystal).sum
  { count := (rows.length : Int)
    count_24h := ((rows.filter fun r => decide (r.created_at > now - 86400)).length : Int)
    metal := metal
    crystal := crystal
    deuterium := 0
    points := (metal + crystal).tdiv 1000 }

/-- C7: the lifetime activity statistics report, in one result, the lifetime
tally and the rolling 24-hour tally of a reporter's reports, with the summed
resource fields and `points = (metal + crystal + deuterium) / 1000` for
expeditions and raids (recycling: `(metal + crystal) / 1000` with deuterium
reported 0), and the
spec's example — three expedition reports of player 7, two of them within the
last 24 h, each with resources `{901:300, 902:300, 903:300}` — yields
`⟨3, 2, 900, 900, 900, 2⟩`. -/
theorem activity_stats_spec :
    (∀ (reports : List ExpeditionReport) (now uid : Int),
      (get_expo_stats reports now uid false).count =
        ((reports.filter fun r => r.reported_by == uid).length : Int) ∧
      (get_expo_stats reports now uid false).count_24h =
        ((reports.filter fun r =>
          r.reported_by == uid && decide (r.created_at > now - 86400)).length : Int) ∧
      (get_expo_stats reports now uid false).points =
        ((get_expo_stats reports now uid false).metal +
          (get_expo_stats reports now uid false).crystal +
          (get_expo_stats reports now uid false).deuterium).tdiv 1000) ∧
    (∀ (reports : List BattleReport) (now uid : Int),
      (get_raid_stats reports now uid false).points =
        ((get_raid_stats reports now uid false).metal +
          (get_raid_stats reports now uid false).crystal +
          (get_raid_stats reports now uid false).deuterium).tdiv 1000) ∧
    (∀ (reports : List RecycleReport) (now uid : Int),
      (get_recycle_stats reports now uid false).deuterium = 0 ∧
      (get_recycle_stats reports now uid false).points =
        ((get_recycle_stats reports now uid false).metal +
          (get_recycle_stats reports now uid false).crystal).tdiv 1000) ∧
    get_expo_stats
      [⟨7, 90000, [("901", 300), ("902", 300), ("903", 300)]⟩,
       ⟨7, 95000, [("901", 300), ("902", 300), ("903", 300)]⟩,
       ⟨7, 1000, [("901", 300), ("902", 300), ("903", 300)]⟩]
      100000 7 false = ⟨3, 2, 900, 900, 900, 2⟩ := by
  refine ⟨?_, ?_, ?_, by decide⟩
  · intro reports now uid
    refine ⟨?_, ?_, rfl⟩
    · simp [get_expo_stats]
    · simp [get_expo_stats, List.filter_filter, Bool.and_comm]
  · intro reports now uid
    exact rfl
  · intro reports now uid
    exact ⟨rfl, rfl⟩

/-! ### Statistics sync (src/api/handlers/statistics.rs, `sync_statistics`) -/

/-- One entry of the statistics-sync request payload. -/
structure PlayerStatRow where
  player_id : Int
  player_name : String
  alliance_tag : Option String := none
  rank : Int
  score : Int
  is_inactive : Bool := false
  is_long_inactive : Bool := false
deriving Repr, DecidableEq

/-- The fields of a `players` row touched by `sync_statistics`. -/
structure PlayerScoreFields where
  id : Int
  name : String
  score_total : Option Int := none
  score_total_rank : Option Int := none
  score_fleet : Option Int := none
  score_fleet_rank : Option Int := none
  score_research : Option Int := none
  score_research_rank : Option Int := none
  score_buildings : Option Int := none
  score_buildings_rank : Option Int := none
  score_defense : Option Int := none
  score_defense_rank : Option Int := none
  honorpoints : Option Int := none
  honorpoints_rank : Option Int := none
  inactive_since : Option Int := none
  updated_at : Int := 0
deriving Repr, DecidableEq

/-- The store touched by `sync_statistics`: the `players` table and the
append-only `player_scores` history. -/
structure StatsState where
  players : List PlayerScoreFields
  history : List PlayerScore
deriving Repr, DecidableEq

/-- `INSERT INTO players (id, name) VALUES (?, ?) ON CONFLICT(id) DO UPDATE
SET name = excluded.name, updated_at = CURRENT_TIMESTAMP`. -/
def stats_upsert_player_name (ps : List PlayerScoreFields) (pid : Int) (nm : String) (now : Int) :
    List PlayerScoreFields :=
  if ps.any fun p => p.id == pid then
    ps.map fun p => if p.id == pid then { p with name := nm, updated_at := now } else p
  else
    ps ++ [{ id := pid, name := nm, updated_at := now }]

/-- The inactive-flag handling of `sync_statistics` for one payload row. -/
def stats_update_inactive (ps : List PlayerScoreFields) (row : PlayerStatRow) (now : Int) :
    List PlayerScoreFields :=
  if row.is_long_inactive then
    ps.map fun p =>
      if p.id == row.player_id && (p.inactive_since == none) then
        { p with inactive_since := some now } else p
  else if !row.is_inactive then
    ps.map fun p => if p.id == row.player_id then { p with inactive_since := none } else p
  else
    ps

/-- The per-`stat_type` `UPDATE players SET ...` of `sync_statistics`;
`none` models the `_ => continue` arm for an unknown `stat_type`. -/
def stats_apply_score (stat_type : String) (ps : List PlayerScoreFields) (row : PlayerStatRow)
    (now : Int) : Option (List PlayerScoreFields) :=
  match stat_type with
  | "total" => some (ps.map fun p => if p.id == row.player_id then
      { p with score_total := some row.score, score_total_rank := some row.rank,
               updated_at := now } else p)
  | "fleet" => some (ps.map fun p => if p.id == row.player_id then
      { p with score_fleet := some row.score, score_fleet_rank := some row.rank,
               updated_at := now } else p)
  | "research" => some (ps.map fun p => if p.id == row.player_id then
      { p with score_research := some row.score, score_research_rank := some row.rank,
               updated_at := now } else p)
  | "buildings" => some (ps.map fun p => if p.id == row.player_id then
      { p with score_buildings := some row.score, score_buildings_rank := some row.rank,
               updated_at := now } else p)
  | "defense" => some (ps.map fun p => if p.id == row.player_id then
      { p with score_defense := some row.score, score_defense_rank := some row.rank,
               updated_at := now } else p)
  | "honor" => some (ps.map fun p => if p.id == row.player_id then
      { p with honorpoints := some row.score, honorpoints_rank := some row.rank,
               updated_at := now } else p)
  | _ => none

/-- The body of the per-player loop of `sync_statistics`: ensure the player
row, update the inactive flags, apply the score update for the request's
`stat_type` (an unknown type `continue`s), and append a history row exactly
when the `stat_type` is `"total"`. -/
def sync_statistics_step (stat_type : String) (now : Int) (st : StatsState)
    (row : PlayerStatRow) : StatsState :=
  let ps1 := stats_upsert_player_name st.players row.player_id row.player_name now
  let ps2 := stats_update_inactive ps1 row now
  match stats_apply_score stat_type ps2 row now with
  | none => { players := ps2, history := st.history }
  | some ps3 =>
      if stat_type = "total" then
        { players := ps3,
          history := st.history ++ [⟨row.player_id, row.score, row.rank, now⟩] }
      else
        { players := ps3, history := st.history }

/-- `sync_statistics`: the sequential per-player loop over the payload. -/
def sync_statistics (st : StatsState) (stat_type : String) (rows : List PlayerStatRow)
    (now : Int) : StatsState :=
  rows.foldl (sync_statistics_step stat_type now) st

theorem sync_statistics_step_history (stat_type : String) (now : Int) (st : StatsState)
    (row : PlayerStatRow) :
    (sync_statistics_step stat_type now st row).history =
      st.history ++ (if stat_type = "total"
        then [PlayerScore.mk row.player_id row.score row.rank now] else []) := by
  by_cases h : stat_type = "total"
  · subst h
    simp [sync_statistics_step, stats_apply_score]
  · unfold sync_statistics_step
    cases happ : stats_apply_score stat_type
        (stats_update_inactive
          (stats_upsert_player_name st.players row.player_id row.player_name now) row now)
        row now with
    | none => simp [happ, h]
    | some ps3 => simp [happ, h]

/-- C8: a `player_scores` history row is appended for each submitted player
exactly when the request's `stat_type` is `"total"`; every other (or unknown)
`stat_type` leaves the history untouched, and no existing history row is ever
modified or removed — the resulting history is always the old history with
the new rows appended at the end. -/
theorem sync_statistics_history_spec (st : StatsState) (stat_type : String)
    (rows : List PlayerStatRow) (now : Int) :
    (sync_statistics st stat_type rows now).history =
      st.history ++ (if stat_type = "total"
        then rows.map fun r => PlayerScore.mk r.player_id r.score r.rank now else []) := by
  induction rows generalizing st with
  | nil => simp [sync_statistics]
  | cons r rs ih =>
    have hstep := sync_statistics_step_history stat_type now st r
    show (sync_statistics (sync_statistics_step stat_type now st r) stat_type rs now).history = _
    rw [ih, hstep]
    by_cases h : stat_type = "total" <;> simp [h]

/-! ### The `planets` table (src/db/queries/planets.rs, src/db/queries/galaxy.rs) -/

/-- One row of the `planets` table.  The columns that the galaxy-scan
`INSERT` does not mention keep their schema defaults and are therefore
optional here; the JSON-encoded state maps are kept as association lists. -/
structure PlanetRow where
  name : Option String := none
  player_id : Int
  coordinates : String
  galaxy : Int
  system : Int
  planet : Int
  type : String
  planet_id : Option Int := none
  fields_used : Option Int := none
  fields_max : Option Int := none
  temperature : Option Int := none
  points : Option Int := none
  metal_prod_h : Option Int := none
  crystal_prod_h : Option Int := none
  deut_prod_h : Option Int := none
  energy_used : Option Int := none
  energy_max : Option Int := none
  resources : Option (List (String × Int)) := none
  buildings : Option (List (String × Int)) := none
  fleet : Option (List (String × Int)) := none
  defense : Option (List (String × Int)) := none
  status : Option String := none
  updated_at : Int := 0
deriving Repr, DecidableEq

/-- The upsert identity key of the `planets` table: `(coordinates, type)`. -/
def planet_key (coordinates planet_type : String) (r : PlanetRow) : Bool :=
  r.coordinates == coordinates && r.type == planet_type

/-- `planets::upsert` (the galaxy-scan upsert): `INSERT INTO planets (name,
player_id, coordinates, galaxy, system, planet, type, planet_id) VALUES ...
ON CONFLICT(coordinates, type) DO UPDATE SET name = excluded.name,
player_id = excluded.player_id, planet_id = COALESCE(excluded.planet_id,
planets.planet_id), updated_at = CURRENT_TIMESTAMP`.  `default_status` is the
schema default of the `status` column, which this `INSERT` does not set (the
schema itself lives outside the handler sources). -/
def planets_upsert (db : List PlanetRow) (player_id : Int) (coordinates : String)
    (galaxy system planet : Int) (planet_type : String) (name : Option String)
    (pr0_planet_id : Option Int) (default_status : Option String) (now : Int) :
    List PlanetRow :=
  if db.any (planet_key coordinates planet_type) then
    db.map fun r =>
      if planet_key coordinates planet_type r then
        { r with name := name, player_id := player_id,
                 planet_id := match pr0_planet_id with
                   | some x => some x
                   | none => r.planet_id,
                 updated_at := now }
      else r
  else
    db ++ [{ name := name, player_id := player_id, coordinates := coordinates,
             galaxy := galaxy, system := system, planet := planet, type := planet_type,
             planet_id := pr0_planet_id, status := default_status, updated_at := now }]

/-- `planets::mark_deleted`: `UPDATE planets SET status = 'deleted',
updated_at = CURRENT_TIMESTAMP WHERE coordinates = ? AND type = ?`. -/
def planets_mark_deleted (db : List PlanetRow) (coordinates planet_type : String) (now : Int) :
    List PlanetRow :=
  db.map fun r =>
    if planet_key coordinates planet_type r then
      { r with status := some "deleted", updated_at := now }
    else r

theorem find?_map_ite_update {α : Type} (p : α → Bool) (g : α → α) (l : List α) (a : α)
    (hg : ∀ x, p (g x) = p x) (h : l.find? p = some a) :
    (l.map fun x => if p x then g x else x).find? p = some (g a) := by
  rw [List.find?_map]
  have hcomp : (p ∘ fun x => if p x then g x else x) = p := by
    funext x
    by_cases hx : p x
    · simp [Function.comp_apply, hx, hg]
    · simp [Function.comp_apply, hx]
  rw [hcomp, h, Option.map_some']
  have hpred := List.find?_some h
  simp [hpred]

/-- C2 (amended): on a galaxy-scan upsert whose `(coordinates, kind)` key is
already stored, the stored row keeps its identity and status and takes the
scan's name and owner, with `planet_id = COALESCE(new, existing)`; in
particular the stored lifecycle status is preserved, not overwritten. -/
theorem planets_upsert_conflict_spec (db : List PlanetRow) (player_id : Int)
    (coordinates : String) (galaxy system planet : Int) (planet_type : String)
    (name : Option String) (pr0_planet_id : Option Int) (default_status : Option String)
    (now : Int) (r : PlanetRow)
    (h : db.find? (planet_key coordinates planet_type) = some r) :
    (planets_upsert db player_id coordinates galaxy system planet planet_type name
        pr0_planet_id default_status now).find? (planet_key coordinates planet_type) =
      some { r with name := name, player_id := player_id,
                    planet_id := match pr0_planet_id with
                      | some x => some x
                      | none => r.planet_id,
                    updated_at := now } := by
  have hmem := List.mem_of_find?_eq_some h
  have hpred := List.find?_some h
  have hany : db.any (planet_key coordinates planet_type) = true :=
    List.any_eq_true.mpr ⟨r, hmem, hpred⟩
  unfold planets_upsert
  rw [if_pos hany]
  exact find?_map_ite_update (planet_key coordinates planet_type)
    (fun r => { r with name := name, player_id := player_id,
                       planet_id := match pr0_planet_id with
                         | some x => some x
                         | none => r.planet_id,
                       updated_at := now })
    db r (fun x => rfl) h

/-- Witness for `planets_upsert_conflict_spec`: a stored `deleted` row at
`2:3:4` is rescanned; name and owner change, the external id is kept by the
coalesce, and the status stays `deleted`. -/
theorem planets_upsert_conflict_spec_witness :
    (planets_upsert
        [{ name := some "Old", player_id := 1, coordinates := "2:3:4", galaxy := 2, system := 3,
           planet := 4, type := "PLANET", planet_id := some 77, status := some "deleted",
           updated_at := 10 }]
        9 "2:3:4" 2 3 4 "PLANET" (some "New") none (some "new") 50).find?
      (planet_key "2:3:4" "PLANET") =
      some { name := some "New", player_id := 9, coordinates := "2:3:4", galaxy := 2, system := 3,
             planet := 4, type := "PLANET", planet_id := some 77, status := some "deleted",
             updated_at := 50 } :=
  planets_upsert_conflict_spec
    [{ name := some "Old", player_id := 1, coordinates := "2:3:4", galaxy := 2, system := 3,
       planet := 4, type := "PLANET", planet_id := some 77, status := some "deleted",
       updated_at := 10 }]
    9 "2:3:4" 2 3 4 "PLANET" (some "New") none (some "new") 50
    { name := some "Old", player_id := 1, coordinates := "2:3:4", galaxy := 2, system := 3,
      planet := 4, type := "PLANET", planet_id := some 77, status := some "deleted",
      updated_at := 10 } (by decide)

/-- Counterexample to C2 as stated: the claim says the new scan's status
overwrites the stored value, but the conflict clause does not touch `status`.
Two stores that differ only in the stored status (`deleted` vs `seen`)
receive the identical upsert, and each keeps its own old status — the result
still depends on the stored status, and the `deleted` row does not take the
fresh-insert status `new`. -/
theorem planets_upsert_status_counterexample :
    (planets_upsert
        [{ name := some "Old", player_id := 1, coordinates := "1:2:3", galaxy := 1, system := 2,
           planet := 3, type := "PLANET", status := some "deleted" }]
        9 "1:2:3" 1 2 3 "PLANET" (some "New") none (some "new") 99).map (fun r => r.status) =
      [some "deleted"] ∧
    (planets_upsert
        [{ name := some "Old", player_id := 1, coordinates := "1:2:3", galaxy := 1, system := 2,
           planet := 3, type := "PLANET", status := some "seen" }]
        9 "1:2:3" 1 2 3 "PLANET" (some "New") none (some "new") 99).map (fun r => r.status) =
      [some "seen"] := by
  exact ⟨by decide, by decide⟩

/-! ### System view (src/db/queries/galaxy.rs, `get_system`) -/

/-- The `ORDER BY planet, type` comparison of `get_system` (SQL string order
on the `type` column). -/
def system_order (a b : PlanetRow) : Bool :=
  decide (a.planet < b.planet) || (a.planet == b.planet && decide (a.type ≤ b.type))

/-- `galaxy::get_system`: `SELECT ... FROM planets WHERE galaxy = ? AND
system = ? AND planet > 0 AND (status IS NULL OR status != 'deleted')
ORDER BY planet, type`. -/
def get_system (db : List PlanetRow) (galaxy system : Int) : List PlanetRow :=
  (db.filter fun r =>
    r.galaxy == galaxy && r.system == system && decide (r.planet > 0) &&
      (r.status == none || r.status != some "deleted")).mergeSort system_order

theorem system_order_trans (a b c : PlanetRow) (h1 : system_order a b = true)
    (h2 : system_order b c = true) : system_order a c = true := by
  simp only [system_order, Bool.or_eq_true, Bool.and_eq_true, decide_eq_true_eq,
    beq_iff_eq] at h1 h2 ⊢
  rcases h1 with h1 | ⟨h1e, h1t⟩ <;> rcases h2 with h2 | ⟨h2e, h2t⟩
  · exact Or.inl (lt_trans h1 h2)
  · exact Or.inl (h2e ▸ h1)
  · exact Or.inl (h1e ▸ h2)
  · exact Or.inr ⟨h1e.trans h2e, le_trans h1t h2t⟩

theorem system_order_total (a b : PlanetRow) : (system_order a b || system_order b a) = true := by
  simp only [system_order, Bool.or_eq_true, Bool.and_eq_true, decide_eq_true_eq, beq_iff_eq]
  rcases lt_trichotomy a.planet b.planet with h | h | h
  · exact Or.inl (Or.inl h)
  · rcases le_total a.type b.type with ht | ht
    · exact Or.inl (Or.inr ⟨h, ht⟩)
    · exact Or.inr (Or.inr ⟨h.symm, ht⟩)
  · exact Or.inr (Or.inl h)

/-- C10: the system view returns exactly the stored rows of the requested
galaxy/system at positions greater than 0 whose status is not `'deleted'`
(so neither rows marked deleted by a scan nor the synthetic position-0 system
marker ever appear, though they stay stored), ordered by position and then by
kind. -/
theorem get_system_spec (db : List PlanetRow) (galaxy system : Int) :
    (∀ r ∈ get_system db galaxy system,
      r ∈ db ∧ r.galaxy = galaxy ∧ r.system = system ∧ r.planet > 0 ∧
        r.status ≠ some "deleted") ∧
    (∀ r ∈ db, r.galaxy = galaxy → r.system = system → r.planet > 0 →
      r.status ≠ some "deleted" → r ∈ get_system db galaxy system) ∧
    (get_system db galaxy system).Pairwise fun a b =>
      a.planet < b.planet ∨ (a.planet = b.planet ∧ a.type ≤ b.type) := by
  refine ⟨?_, ?_, ?_⟩
  · intro r hr
    rw [get_system, List.mem_mergeSort, List.mem_filter] at hr
    obtain ⟨hmem, hpred⟩ := hr
    simp only [Bool.and_eq_true, Bool.or_eq_true, beq_iff_eq, decide_eq_true_eq, bne_iff_ne,
      ne_eq] at hpred
    obtain ⟨⟨⟨hg, hs⟩, hp⟩, hst⟩ := hpred
    refine ⟨hmem, hg, hs, hp, ?_⟩
    rcases hst with hst | hst
    · simp [hst]
    · exact hst
  · intro r hmem hg hs hp hst
    rw [get_system, List.mem_mergeSort, List.mem_filter]
    refine ⟨hmem, ?_⟩
    simp only [Bool.and_eq_true, Bool.or_eq_true, beq_iff_eq, decide_eq_true_eq, bne_iff_ne,
      ne_eq]
    exact ⟨⟨⟨hg, hs⟩, hp⟩, Or.inr hst⟩
  · have hs := List.sorted_mergeSort system_order_trans system_order_total
      (db.filter fun r =>
        r.galaxy == galaxy && r.system == system && decide (r.planet > 0) &&
          (r.status == none || r.status != some "deleted"))
    rw [get_system]
    refine hs.imp ?_
    intro a b hab
    simp only [system_order, Bool.or_eq_true, Bool.and_eq_true, decide_eq_true_eq,
      beq_iff_eq] at hab
    exact hab

/-- Witness for `get_system_spec`: in a store holding the position-0 marker,
a deleted row at position 5, and a live planet at position 3 of system 1:2,
the live planet is returned. -/
theorem get_system_spec_witness :
    ({ name := some "Alpha", player_id := 4, coordinates := "1:2:3", galaxy := 1, system := 2,
       planet := 3, type := "PLANET", status := some "seen",
       updated_at := 7 } : PlanetRow) ∈
      get_system
        [{ name := some "SCANNED", player_id := 0, coordinates := "1:2:0", galaxy := 1,
           system := 2, planet := 0, type := "PLANET", updated_at := 9 },
         { name := some "Gone", player_id := 5, coordinates := "1:2:5", galaxy := 1, system := 2,
           planet := 5, type := "PLANET", status := some "deleted", updated_at := 8 },
         { name := some "Alpha", player_id := 4, coordinates := "1:2:3", galaxy := 1, system := 2,
           planet := 3, type := "PLANET", status := some "seen", updated_at := 7 }] 1 2 :=
  (get_system_spec
      [{ name := some "SCANNED", player_id := 0, coordinates := "1:2:0", galaxy := 1,
         system := 2, planet := 0, type := "PLANET", updated_at := 9 },
       { name := some "Gone", player_id := 5, coordinates := "1:2:5", galaxy := 1, system := 2,
         planet := 5, type := "PLANET", status := some "deleted", updated_at := 8 },
       { name := some "Alpha", player_id := 4, coordinates := "1:2:3", galaxy := 1, system := 2,
         planet := 3, type := "PLANET", status := some "seen", updated_at := 7 }] 1 2).2.1
    _ (by decide) (by decide) (by decide) (by decide) (by decide)

/-! ### Galaxy-scan batch reconciliation (src/api/handlers/planets.rs,
`create_planets_batch`) -/

/-- The fields of a `players` row touched by the ingestion paths. -/
structure Player where
  id : Int
  name : String
  alliance_id : Option Int := none
  research : Option (List (String × Int)) := none
  updated_at : Int := 0
deriving Repr, DecidableEq

/-- One row of the `alliances` table. -/
structure Alliance where
  id : Int
  name : String
  tag : String
  updated_at : Int := 0
deriving Repr, DecidableEq

/-- `players::ensure_exists`: `INSERT INTO players (id, name) VALUES (?, ?)
ON CONFLICT(id) DO NOTHING`. -/
def players_ensure_exists (ps : List Player) (id : Int) (name : String) : List Player :=
  if ps.any fun p => p.id == id then ps else ps ++ [{ id := id, name := name }]

/-- `alliances::ensure_exists`: insert with the tag doubling as the name, or
update the tag on conflict. -/
def alliances_ensure_exists (als : List Alliance) (id : Int) (tag : String) (now : Int) :
    List Alliance :=
  if als.any fun a => a.id == id then
    als.map fun a => if a.id == id then { a with tag := tag, updated_at := now } else a
  else
    als ++ [{ id := id, name := tag, tag := tag, updated_at := now }]

/-- `players::update_alliance`: set the player's alliance only if the
alliance row exists (`... WHERE id = ? AND EXISTS (SELECT 1 FROM alliances
WHERE id = ?)`). -/
def players_update_alliance (ps : List Player) (als : List Alliance) (pid aid : Int)
    (now : Int) : List Player :=
  if als.any fun a => a.id == aid then
    ps.map fun p =>
      if p.id == pid then { p with alliance_id := some aid, updated_at := now } else p
  else ps

/-- The tables touched by the batch ingestion paths. -/
structure BatchState where
  players : List Player
  alliances : List Alliance
  planets : List PlanetRow
deriving Repr, DecidableEq

/-- One occupied position of a galaxy-scan payload (`PlanetInput`). -/
structure PlanetInput where
  position : Int
  player_id : Option Int := none
  player_name : Option String := none
  planet_name : Option String := none
  moon_name : Option String := none
  has_moon : Option Bool := none
  planet_id : Option Int := none
  moon_id : Option Int := none
  alliance_id : Option Int := none
  alliance_tag : Option String := none
deriving Repr, DecidableEq

/-- One destroyed position of a galaxy-scan payload. -/
structure DestroyedInput where
  position : Int
  type : String
deriving Repr, DecidableEq

/-- The galaxy-scan request (`PlanetsNewRequest`). -/
structure PlanetsNewRequest where
  galaxy : Int
  system : Int
  planets : List PlanetInput
  destroyed : List DestroyedInput := []
deriving Repr, DecidableEq

/-- The response struct of the galaxy-scan endpoint (src/api/response.rs,
`PlanetsNewResponse`): success flag plus the created and deleted counts. -/
structure PlanetsNewResponse where
  success : Bool
  created : Int
  deleted : Int
deriving Repr, DecidableEq

/-- `format!("{}:{}:{}", galaxy, system, position)`. -/
def coord_string (galaxy system position : Int) : String :=
  toString galaxy ++ ":" ++ toString system ++ ":" ++ toString position

/-- Whether a scanned position carries a usable player identity: the match
`Some(id) if id > 0` of `create_planets_batch`. -/
def scan_has_player (p : PlanetInput) : Bool :=
  match p.player_id with
  | some id => decide (id > 0)
  | none => false

/-- The body of the per-position loop of `create_planets_batch`: the
accumulator is `(created, skipped, state)`.  A position without a player
identity only bumps the skipped tally; otherwise the player (name defaulting
to `"Unknown"`) and, when id and tag are both present, the alliance are
resolved, the planet is upserted, and a second `MOON` row is upserted at the
same coordinates when a moon is indicated. -/
def process_scan_planet (galaxy system : Int) (default_status : Option String) (now : Int)
    (acc : Int × Int × BatchState) (p : PlanetInput) : Int × Int × BatchState :=
  match p.player_id with
  | some id =>
    if id > 0 then
      let players := players_ensure_exists acc.2.2.players id (p.player_name.getD "Unknown")
      let pa : List Player × List Alliance :=
        match p.alliance_id, p.alliance_tag with
        | some aid, some tag =>
          let als := alliances_ensure_exists acc.2.2.alliances aid tag now
          (players_update_alliance players als id aid now, als)
        | _, _ => (players, acc.2.2.alliances)
      let coordinates := coord_string galaxy system p.position
      let db1 := planets_upsert acc.2.2.planets id coordinates galaxy system p.position
        "PLANET" p.planet_name p.planet_id default_status now
      if p.has_moon.getD false then
        (acc.1 + 2, acc.2.1,
          ⟨pa.1, pa.2, planets_upsert db1 id coordinates galaxy system p.position "MOON"
            p.moon_name p.moon_id default_status now⟩)
      else
        (acc.1 + 1, acc.2.1, ⟨pa.1, pa.2, db1⟩)
    else (acc.1, acc.2.1 + 1, acc.2.2)
  | none => (acc.1, acc.2.1 + 1, acc.2.2)

/-- `create_planets_batch`: resolve the synthetic system-marker player, stamp
the position-0 marker (`EMPTY` when the scan reported nothing, `SCANNED`
otherwise), mark the destroyed positions deleted, then run the per-position
loop.  Returns the HTTP response (success/created/deleted only), alongside
the internal skipped tally (which the handler only logs) and the final
state. -/
def create_planets_batch (st : BatchState) (req : PlanetsNewRequest)
    (default_status : Option String) (now : Int) :
    PlanetsNewResponse × Int × BatchState :=
  let players0 := players_ensure_exists st.players 0 "System"
  let marker_name := if req.planets.isEmpty && req.destroyed.isEmpty then "EMPTY" else "SCANNED"
  let planets1 := planets_upsert st.planets 0 (coord_string req.galaxy req.system 0)
    req.galaxy req.system 0 "PLANET" (some marker_name) none default_status now
  let del := req.destroyed.foldl
    (fun (a : List PlanetRow × Int) d =>
      (planets_mark_deleted a.1 (coord_string req.galaxy req.system d.position) d.type now,
       a.2 + 1))
    (planets1, 0)
  let res := req.planets.foldl (process_scan_planet req.galaxy req.system default_status now)
    (0, 0, ⟨players0, st.alliances, del.1⟩)
  ({ success := true, created := res.1, deleted := del.2 }, res.2.1, res.2.2)

theorem process_scan_planet_skip (galaxy system : Int) (default_status : Option String)
    (now : Int) (acc : Int × Int × BatchState) (p : PlanetInput)
    (h : scan_has_player p = false) :
    process_scan_planet galaxy system default_status now acc p =
      (acc.1, acc.2.1 + 1, acc.2.2) := by
  cases hp : p.player_id with
  | none => simp [process_scan_planet, hp]
  | some id =>
    rw [scan_has_player, hp, decide_eq_false_iff_not] at h
    simp [process_scan_planet, hp, h]

theorem process_scan_planet_valid_counts (galaxy system : Int) (default_status : Option String)
    (now : Int) (acc : Int × Int × BatchState) (p : PlanetInput)
    (h : scan_has_player p = true) :
    (process_scan_planet galaxy system default_status now acc p).1 =
      acc.1 + (if p.has_moon.getD false then 2 else 1) ∧
    (process_scan_planet galaxy system default_status now acc p).2.1 = acc.2.1 := by
  cases hp : p.player_id with
  | none => rw [scan_has_player, hp] at h; exact absurd h (by simp)
  | some id =>
    rw [scan_has_player, hp, decide_eq_true_eq] at h
    by_cases hm : p.has_moon.getD false <;>
      simp [process_scan_planet, hp, h, hm]

theorem scan_fold_counts (galaxy system : Int) (default_status : Option String) (now : Int)
    (l : List PlanetInput) :
    ∀ acc : Int × Int × BatchState,
      (l.foldl (process_scan_planet galaxy system default_status now) acc).1 =
        acc.1 + ((l.filter scan_has_player).map
          fun p => if p.has_moon.getD false then (2 : Int) else 1).sum ∧
      (l.foldl (process_scan_planet galaxy system default_status now) acc).2.1 =
        acc.2.1 + ((l.filter fun p => !scan_has_player p).length : Int) := by
  induction l with
  | nil => intro acc; simp
  | cons p l ih =>
    intro acc
    rw [List.foldl_cons]
    cases hv : scan_has_player p with
    | false =>
      rw [process_scan_planet_skip galaxy system default_status now acc p hv]
      obtain ⟨ih1, ih2⟩ := ih (acc.1, acc.2.1 + 1, acc.2.2)
      refine ⟨?_, ?_⟩
      · rw [ih1]; simp [hv]
      · rw [ih2]; simp only [List.filter_cons, hv, Bool.not_false, if_pos, List.length_cons]
        push_cast
        omega
    | true =>
      obtain ⟨hc, hs⟩ := process_scan_planet_valid_counts galaxy system default_status now acc p hv
      obtain ⟨ih1, ih2⟩ := ih (process_scan_planet galaxy system default_status now acc p)
      refine ⟨?_, ?_⟩
      · rw [ih1, hc, List.filter_cons, if_pos hv]
        simp only [List.map_cons, List.sum_cons]
        ring
      · rw [ih2, hs]; simp [hv]

theorem destroyed_fold_count (galaxy system : Int) (now : Int) (l : List DestroyedInput) :
    ∀ (db : List PlanetRow) (i : Int),
      (l.foldl
        (fun (a : List PlanetRow × Int) d =>
          (planets_mark_deleted a.1 (coord_string galaxy system d.position) d.type now,
           a.2 + 1))
        (db, i)).2 = i + (l.length : Int) := by
  induction l with
  | nil => intro db i; simp
  | cons d l ih =>
    intro db i
    rw [List.foldl_cons, ih]
    simp only [List.length_cons]
    push_cast
    ring

/-- C3 (amended): the batch reconciliation returns `success = true` together
with the created and deleted counts only; the skipped tally — one per
occupied position lacking a player identity (absent id or id ≤ 0) — is kept
internally (it is only logged) and such a position performs no write at all:
its loop step leaves the state untouched and only bumps the skipped
counter.  `created` counts one upserted row per valid position plus one more
when a moon is indicated; `deleted` counts the destroyed entries. -/
theorem create_planets_batch_spec (st : BatchState) (req : PlanetsNewRequest)
    (default_status : Option String) (now : Int) :
    (create_planets_batch st req default_status now).1.success = true ∧
    (create_planets_batch st req default_status now).1.deleted =
      (req.destroyed.length : Int) ∧
    (create_planets_batch st req default_status now).2.1 =
      ((req.planets.filter fun p => !scan_has_player p).length : Int) ∧
    (create_planets_batch st req default_status now).1.created =
      ((req.planets.filter scan_has_player).map
        fun p => if p.has_moon.getD false then (2 : Int) else 1).sum ∧
    (∀ (acc : Int × Int × BatchState) (p : PlanetInput), scan_has_player p = false →
      process_scan_planet req.galaxy req.system default_status now acc p =
        (acc.1, acc.2.1 + 1, acc.2.2)) := by
  refine ⟨rfl, ?_, ?_, ?_, fun acc p h =>
    process_scan_planet_skip req.galaxy req.system default_status now acc p h⟩
  · show (req.destroyed.foldl _ (_, (0 : Int))).2 = _
    rw [destroyed_fold_count]
    ring
  · show (req.planets.foldl _ ((0 : Int), (0 : Int), _)).2.1 = _
    rw [(scan_fold_counts req.galaxy req.system default_status now req.planets _).2]
    ring
  · show (req.planets.foldl _ ((0 : Int), (0 : Int), _)).1 = _
    rw [(scan_fold_counts req.galaxy req.system default_status now req.planets _).1]
    ring

/-- Witness for `create_planets_batch_spec`: a position-4 entry with no
player id is skipped without any write. -/
theorem create_planets_batch_spec_witness :
    scan_has_player { position := 4 } = false ∧
    process_scan_planet 1 2 none 0 (0, 0, ⟨[], [], []⟩) { position := 4 } =
      (0, 0 + 1, (⟨[], [], []⟩ : BatchState)) :=
  ⟨by decide,
    (create_planets_batch_spec ⟨[], [], []⟩ ⟨1, 2, [], []⟩ none 0).2.2.2.2
      (0, 0, ⟨[], [], []⟩) { position := 4 } (by decide)⟩

/-- Counterexample to C3 as stated: the response does not carry the skipped
count.  A scan reporting no positions and a scan reporting two occupied
positions without player identity (and hence two internal skips, visible in
the second component of the embedding) return the very same response, so the
response cannot report the number of skipped positions. -/
theorem create_planets_batch_counterexample :
    (create_planets_batch ⟨[], [], []⟩ ⟨1, 2, [], []⟩ none 0).1 =
      (create_planets_batch ⟨[], [], []⟩
        ⟨1, 2, [{ position := 4 }, { position := 5, player_id := some 0 }], []⟩ none 0).1 ∧
    (create_planets_batch ⟨[], [], []⟩ ⟨1, 2, [], []⟩ none 0).2.1 = 0 ∧
    (create_planets_batch ⟨[], [], []⟩
        ⟨1, 2, [{ position := 4 }, { position := 5, player_id := some 0 }], []⟩ none 0).2.1 =
      2 := by
  exact ⟨by decide, by decide, by decide⟩

/-! ### Empire snapshot ingestion (src/api/handlers/empire.rs, `sync_empire`;
src/db/queries/planets.rs, `upsert_empire`) -/

/-- Hourly production figures of one empire-page planet. -/
structure EmpireProduction where
  metal : Int
  crystal : Int
  deuterium : Int
  energy_used : Int
  energy_max : Int
deriving Repr, DecidableEq

/-- One planet of the empire-sync payload. -/
structure EmpirePlanet where
  external_id : Int
  name : String
  coordinates : String
  fields_used : Int
  fields_max : Int
  temperature : Int
  points : Int
  resources : List (String × Int)
  production : EmpireProduction
  buildings : List (String × Int)
  fleet : List (String × Int)
  defense : List (String × Int)
deriving Repr, DecidableEq

/-- The empire-sync request payload. -/
structure EmpireSyncRequest where
  player_id : Int
  player_name : String
  research : List (String × Int)
  planets : List EmpirePlanet
deriving Repr, DecidableEq

/-- Modelled from the spec: `players::update_research` persists the research
map as a single encoded value on the player row ("persist research as a
single encoded map"); the SQL text (queries/players/update_research.sql) is
not part of the handler sources. -/
def players_update_research (ps : List Player) (pid : Int) (research : List (String × Int))
    (now : Int) : List Player :=
  ps.map fun p =>
    if p.id == pid then { p with research := some research, updated_at := now } else p

/-- Rust `str::split(':')` over the character list of a string: the list of
(possibly empty) segments between the `':'` separators.  `""` gives `[""]`
and `"::"` gives `["", "", ""]`, as in Rust. -/
def split_colon_aux : List Char → List (List Char)
  | [] => [[]]
  | c :: rest =>
    let r := split_colon_aux rest
    if c = ':' then [] :: r
    else
      match r with
      | [] => [[c]]
      | h :: t => (c :: h) :: t

/-- `coordinates.split(':')` as a list of strings. -/
def split_colon (s : String) : List String :=
  (split_colon_aux s.data).map fun cs => ⟨cs⟩

/-- The digits part of Rust `str::parse::<i64>`: a non-empty all-digit
character list, read in base 10. -/
def digits_to_nat? (cs : List Char) : Option Nat :=
  match cs with
  | [] => none
  | _ =>
    if cs.all fun c => c.isDigit then
      some (cs.foldl (fun n c => n * 10 + (c.toNat - 48)) 0)
    else none

/-- Rust `str::parse::<i64>`: an optional sign followed by digits; anything
else fails (the `i64` range is not modelled). -/
def parse_i64_chars (cs : List Char) : Option Int :=
  match cs with
  | '+' :: rest => (digits_to_nat? rest).map fun n => (n : Int)
  | '-' :: rest => (digits_to_nat? rest).map fun n => -(n : Int)
  | _ => (digits_to_nat? cs).map fun n => (n : Int)

/-- `str::parse::<i64>() ... unwrap_or(0)`: a failed integer parse yields 0. -/
def parse_i64 (s : String) : Int :=
  (parse_i64_chars s.data).getD 0

/-- `planets::upsert_empire`: the full-data planet upsert keyed by
`(coordinates, 'PLANET')`; on conflict every data column is overwritten from
the snapshot and the status becomes `'seen'` (the coordinate columns are not
in the update set). -/
def upsert_empire (db : List PlanetRow) (player_id pr0_planet_id : Int) (name : String)
    (coordinates : String) (galaxy system planet : Int)
    (fields_used fields_max temperature points : Int) (production : EmpireProduction)
    (resources buildings fleet defense : List (String × Int)) (now : Int) : List PlanetRow :=
  if db.any (planet_key coordinates "PLANET") then
    db.map fun r =>
      if planet_key coordinates "PLANET" r then
        { r with planet_id := some pr0_planet_id, player_id := player_id, name := some name,
                 fields_used := some fields_used, fields_max := some fields_max,
                 temperature := some temperature, points := some points,
                 metal_prod_h := some production.metal,
                 crystal_prod_h := some production.crystal,
                 deut_prod_h := some production.deuterium,
                 energy_used := some production.energy_used,
                 energy_max := some production.energy_max,
                 resources := some resources, buildings := some buildings,
                 fleet := some fleet, defense := some defense,
                 status := some "seen", updated_at := now }
      else r
  else
    db ++ [{ name := some name, player_id := player_id, coordinates := coordinates,
             galaxy := galaxy, system := system, planet := planet, type := "PLANET",
             planet_id := some pr0_planet_id, fields_used := some fields_used,
             fields_max := some fields_max, temperature := some temperature,
             points := some points, metal_prod_h := some production.metal,
             crystal_prod_h := some production.crystal,
             deut_prod_h := some production.deuterium,
             energy_used := some production.energy_used,
             energy_max := some production.energy_max, resources := some resources,
             buildings := some buildings, fleet := some fleet, defense := some defense,
             status := some "seen", updated_at := now }]

/-- The per-planet body of the `sync_empire` loop: split the coordinate
string on `':'`; anything but exactly three parts is skipped (`continue`),
otherwise each part is parsed with `unwrap_or(0)` and the planet is upserted
with the full snapshot data. -/
def sync_empire_planet_step (player_id : Int) (now : Int) (db : List PlanetRow)
    (planet : EmpirePlanet) : List PlanetRow :=
  let parts := split_colon planet.coordinates
  if parts.length = 3 then
    upsert_empire db player_id planet.external_id planet.name planet.coordinates
      (parse_i64 (parts.getD 0 "")) (parse_i64 (parts.getD 1 "")) (parse_i64 (parts.getD 2 ""))
      planet.fields_used planet.fields_max planet.temperature planet.points
      planet.production planet.resources planet.buildings planet.fleet planet.defense now
  else db

/-- `sync_empire`: resolve the player id (payload id if positive, else the
authenticated user's linked player), ensure the player, link the caller's
alliance, persist research, then run the per-planet loop. -/
def sync_empire (st : BatchState) (req : EmpireSyncRequest) (user_player_id : Option Int)
    (user_alliance_id : Option Int) (now : Int) : Except String BatchState :=
  match (if req.player_id > 0 then some req.player_id else user_player_id) with
  | none => Except.error "Kein player_id gefunden"
  | some player_id =>
    let players := players_ensure_exists st.players player_id req.player_name
    let players := match user_alliance_id with
      | some aid => players_update_alliance players st.alliances player_id aid now
      | none => players
    let players := players_update_research players player_id req.research now
    Except.ok { players := players, alliances := st.alliances,
                planets := req.planets.foldl (sync_empire_planet_step player_id now) st.planets }

/-- How the claim reads "a valid `galaxy:system:position` coordinate":
exactly three ':'-separated fields, each a parseable integer.  (Spec-side
definition, used to state C6.) -/
def valid_coordinates (s : String) : Bool :=
  match split_colon s with
  | [g, sys, p] =>
    (parse_i64_chars g.data).isSome && (parse_i64_chars sys.data).isSome &&
      (parse_i64_chars p.data).isSome
  | _ => false

/-- C6 (amended): a planet entry is skipped — no write, loop continues —
exactly when its coordinate string does not split into three ':'-separated
parts; an entry with three parts is always upserted, with parts that fail
the integer parse stored as 0.  Removing a skipped entry from the batch does
not change the resulting planets table, so the remaining entries are still
processed. -/
theorem sync_empire_skip_spec :
    (∀ (player_id now : Int) (db : List PlanetRow) (p : EmpirePlanet),
      (split_colon p.coordinates).length ≠ 3 →
      sync_empire_planet_step player_id now db p = db) ∧
    (∀ (player_id now : Int) (db : List PlanetRow) (p : EmpirePlanet),
      (split_colon p.coordinates).length = 3 →
      sync_empire_planet_step player_id now db p =
        upsert_empire db player_id p.external_id p.name p.coordinates
          (parse_i64 ((split_colon p.coordinates).getD 0 ""))
          (parse_i64 ((split_colon p.coordinates).getD 1 ""))
          (parse_i64 ((split_colon p.coordinates).getD 2 ""))
          p.fields_used p.fields_max p.temperature p.points p.production p.resources
          p.buildings p.fleet p.defense now) ∧
    (∀ (player_id now : Int) (db : List PlanetRow) (xs ys : List EmpirePlanet)
      (p : EmpirePlanet), (split_colon p.coordinates).length ≠ 3 →
      (xs ++ p :: ys).foldl (sync_empire_planet_step player_id now) db =
        (xs ++ ys).foldl (sync_empire_planet_step player_id now) db) := by
  have hskip : ∀ (player_id now : Int) (db : List PlanetRow) (p : EmpirePlanet),
      (split_colon p.coordinates).length ≠ 3 →
      sync_empire_planet_step player_id now db p = db := by
    intro player_id now db p h
    unfold sync_empire_planet_step
    exact if_neg h
  refine ⟨hskip, ?_, ?_⟩
  · intro player_id now db p h
    unfold sync_empire_planet_step
    exact if_pos h
  · intro player_id now db xs ys p h
    rw [List.foldl_append, List.foldl_append, List.foldl_cons,
      hskip player_id now _ p h]

/-- Witness for `sync_empire_skip_spec`: an entry with coordinate string
`"1:2"` (two parts) is skipped and leaves the store unchanged. -/
theorem sync_empire_skip_spec_witness :
    sync_empire_planet_step 7 5 []
      { external_id := 11, name := "Kolonie", coordinates := "1:2", fields_used := 1,
        fields_max := 2, temperature := 3, points := 4, resources := [],
        production := ⟨0, 0, 0, 0, 0⟩, buildings := [], fleet := [], defense := [] } = [] :=
  sync_empire_skip_spec.1 7 5 []
    { external_id := 11, name := "Kolonie", coordinates := "1:2", fields_used := 1,
      fields_max := 2, temperature := 3, points := 4, resources := [],
      production := ⟨0, 0, 0, 0, 0⟩, buildings := [], fleet := [], defense := [] }
    (by decide)

/-- Counterexample to C6 as stated: `"1:a:3"` is not a valid
`galaxy:system:position` coordinate, yet the entry is not skipped — it splits
into three parts, the unparseable system field defaults to 0, and a planet
row with coordinates `"1:a:3"` (galaxy 1, system 0, position 3) is
written. -/
theorem sync_empire_malformed_counterexample :
    valid_coordinates "1:a:3" = false ∧
    ((sync_empire ⟨[], [], []⟩
        { player_id := 7, player_name := "P", research := [],
          planets := [{ external_id := 11, name := "Kolonie", coordinates := "1:a:3",
                        fields_used := 1, fields_max := 2, temperature := 3, points := 4,
                        resources := [], production := ⟨0, 0, 0, 0, 0⟩, buildings := [],
                        fleet := [], defense := [] }] }
        none none 5).toOption.map fun st =>
          st.planets.map fun r => (r.coordinates, r.galaxy, r.system, r.planet)) =
      some [("1:a:3", 1, 0, 3)] := by
  exact ⟨by decide, by decide⟩

/-! ### Export builder (src/db/queries/bot.rs, `build_export_json`) -/

/-- One row of the export planets query (`get_all_planets_for_export`):
`has_moon` is the SQLite `EXISTS` integer, `timepoint` is
`COALESCE(last_scan_at*1000, updated_at*1000, 0)` in epoch milliseconds. -/
structure ExportPlanet where
  galaxy : Int
  system : Int
  planet : Int
  player_id : Option Int
  player_name : Option String
  alliance_id : Int
  alliance_name : String
  has_moon : Int
  timepoint : Int
deriving Repr, DecidableEq

/-- One row of `get_all_players_for_export`. -/
structure ExportPlayer where
  id : Int
  name : String
  timepoint : Int
deriving Repr, DecidableEq

/-- One row of `get_all_alliances_for_export`. -/
structure ExportAlliance where
  id : Int
  name : String
  timepoint : Int
deriving Repr, DecidableEq

/-- The `PlanetSlotData` object serialized into each occupied position
slot. -/
structure PlanetSlotData where
  planetname : String
  hasmoon : Bool
  playerid : Int
  name : String
  allianceid : Int
  alliancename : String
  special : String
deriving Repr, DecidableEq

/-- The JSON values occurring inside one coordinate entry: `Null` slots, the
`timepoint` number, and occupied slots. -/
inductive JVal where
  | null : JVal
  | num : Int → JVal
  | slotData : PlanetSlotData → JVal
deriving Repr, DecidableEq

/-- The `{name, timepoint}` objects of the players and alliances maps. -/
structure NameTimepoint where
  name : String
  timepoint : Int
deriving Repr, DecidableEq

/-- `serde_json::Map::get` on the modelled JSON object: the value of the
first binding of the key. -/
def map_get? {α : Type} : List (String × α) → String → Option α
  | [], _ => none
  | kv :: t, k => if kv.1 = k then some kv.2 else map_get? t k

/-- `serde_json::Map::insert`: replace the value of an existing key, append a
new key otherwise (key order is irrelevant to the export contract). -/
def map_insert {α : Type} (m : List (String × α)) (k : String) (v : α) : List (String × α) :=
  if (map_get? m k).isSome then
    m.map fun kv => if kv.1 = k then (k, v) else kv
  else m ++ [(k, v)]

/-- The `or_insert_with` initializer of one coordinate entry: the 15 position
slots `"1"..="15"` as `Null` plus the group `"timepoint"`. -/
def init_coord_entry (timepoint : Int) : List (String × JVal) :=
  ((List.range 15).map fun i => (toString (i + 1), JVal.null)) ++
    [("timepoint", JVal.num timepoint)]

/-- The `"galaxy:system"` grouping key of one export planet row. -/
def export_group_key (p : ExportPlanet) : String :=
  toString p.galaxy ++ ":" ++ toString p.system

/-- The `timepoint` maximum update of `build_export_json`: bump the stored
`timepoint` when the row's is strictly larger (no update when the stored
value is missing or not a number). -/
def entry_update_timepoint (entry : List (String × JVal)) (tp : Int) : List (String × JVal) :=
  match map_get? entry "timepoint" with
  | some (JVal.num current) =>
    if tp > current then map_insert entry "timepoint" (JVal.num tp) else entry
  | _ => entry

/-- The slot insertion of `build_export_json`: only when the row carries both
a player id and a player name is the slot at key `planet.to_string()`
filled. -/
def entry_insert_slot (entry : List (String × JVal)) (p : ExportPlanet) :
    List (String × JVal) :=
  match p.player_id, p.player_name with
  | some pid, some pname =>
    map_insert entry (toString p.planet)
      (JVal.slotData ⟨"", p.has_moon != 0, pid, pname, p.alliance_id, p.alliance_name, ""⟩)
  | _, _ => entry

/-- One iteration of the coordinates-map loop of `build_export_json`. -/
def export_step (m : List (String × List (String × JVal))) (p : ExportPlanet) :
    List (String × List (String × JVal)) :=
  let key := export_group_key p
  let entry := match map_get? m key with
    | some e => e
    | none => init_coord_entry p.timepoint
  map_insert m key (entry_insert_slot (entry_update_timepoint entry p.timepoint) p)

/-- `build_export_json` without the final serialization: the 3-element
`[coordinatesMap, playersMap, alliancesMap]` document as a triple, with the
synthetic `"-1"` no-alliance sentinel whose timepoint is
`alliances.iter().map(timepoint).max().unwrap_or(0)`. -/
def build_export (planets : List ExportPlanet) (players : List ExportPlayer)
    (alliances : List ExportAlliance) :
    List (String × List (String × JVal)) × List (String × NameTimepoint) ×
      List (String × NameTimepoint) :=
  let coords := planets.foldl export_step []
  let players_map := players.foldl
    (fun m pl => map_insert m (toString pl.id) ⟨pl.name, pl.timepoint⟩) []
  let alliances_map := alliances.foldl
    (fun m a => map_insert m (toString a.id) ⟨a.name, a.timepoint⟩) []
  let max_timepoint := ((alliances.map fun a => a.timepoint).max?).getD 0
  (coords, players_map, map_insert alliances_map "-1" ⟨"-", max_timepoint⟩)

theorem digitChar_ne_t (m : Nat) : Nat.digitChar m ≠ 't' := by
  rcases Nat.lt_or_ge m 16 with h | h
  · interval_cases m <;> decide
  · unfold Nat.digitChar
    repeat rw [if_neg (by omega)]
    decide

theorem toDigitsCore_ne_t (b : Nat) (f : Nat) :
    ∀ (n : Nat) (acc : List Char), (∀ c ∈ acc, c ≠ 't') →
      ∀ c ∈ Nat.toDigitsCore b f n acc, c ≠ 't' := by
  induction f with
  | zero =>
    intro n acc hacc c hc
    simp only [Nat.toDigitsCore] at hc
    exact hacc c hc
  | succ f ih =>
    intro n acc hacc c hc
    simp only [Nat.toDigitsCore] at hc
    by_cases hz : n / b = 0
    · rw [if_pos hz] at hc
      rcases List.mem_cons.mp hc with rfl | hmem
      · exact digitChar_ne_t _
      · exact hacc c hmem
    · rw [if_neg hz] at hc
      refine ih (n / b) (Nat.digitChar (n % b) :: acc) ?_ c hc
      intro c2 h2
      rcases List.mem_cons.mp h2 with rfl | hmem
      · exact digitChar_ne_t _
      · exact hacc c2 hmem

theorem nat_repr_ne_timepoint (n : Nat) : Nat.repr n ≠ "timepoint" := by
  intro h
  have ht : 't' ∈ (Nat.repr n).data := by rw [h]; decide
  have hall : ∀ c ∈ (Nat.repr n).data, c ≠ 't' := by
    have hdata : (Nat.repr n).data = Nat.toDigitsCore 10 (n + 1) n [] := rfl
    rw [hdata]
    exact toDigitsCore_ne_t 10 (n + 1) n [] (by simp)
  exact hall 't' ht rfl

/-- A stringified integer is never the `"timepoint"` key: position slots can
never collide with the group timepoint. -/
theorem int_toString_ne_timepoint (n : Int) : toString n ≠ "timepoint" := by
  cases n with
  | ofNat m => exact nat_repr_ne_timepoint m
  | negSucc m =>
    intro h
    have h2 : "-" ++ Nat.repr (m + 1) = "timepoint" := h
    have h3 : ('-' :: (Nat.repr (m + 1)).data) = "timepoint".data := by
      have := congrArg String.data h2
      rwa [String.data_append] at this
    have h4 : '-' = 't' := by
      have : "timepoint".data = 't' :: "imepoint".data := rfl
      rw [this] at h3
      exact (List.cons.injEq _ _ _ _).mp h3 |>.1
    exact absurd h4 (by decide)

theorem nat_toString_ne_timepoint (n : Nat) : toString n ≠ "timepoint" :=
  nat_repr_ne_timepoint n

theorem get_map_replace {α : Type} (k : String) (v : α) (m : List (String × α)) :
    map_get? (m.map fun kv => if kv.1 = k then (k, v) else kv) k =
      if (map_get? m k).isSome then some v else none := by
  induction m with
  | nil => rfl
  | cons kv t ih =>
    by_cases hkk : kv.1 = k
    · simp [map_get?, hkk]
    · simp [map_get?, hkk, ih]

theorem get_append_singleton {α : Type} (k : String) (v : α) (m : List (String × α))
    (h : map_get? m k = none) :
    map_get? (m ++ [(k, v)]) k = some v := by
  induction m with
  | nil => simp [map_get?]
  | cons kv t ih =>
    by_cases hkk : kv.1 = k
    · simp [map_get?, hkk] at h
    · simp only [map_get?, hkk, if_false] at h ⊢
      simp [hkk, ih h]

theorem get_map_replace_ne {α : Type} (k : String) (v : α) (k2 : String) (hk : k2 ≠ k)
    (m : List (String × α)) :
    map_get? (m.map fun kv => if kv.1 = k then (k, v) else kv) k2 = map_get? m k2 := by
  induction m with
  | nil => rfl
  | cons kv t ih =>
    by_cases hkk : kv.1 = k
    · simp [map_get?, hkk, Ne.symm hk, ih]
    · by_cases hk2 : kv.1 = k2 <;> simp [map_get?, hkk, hk2, hk, ih]

theorem get_append_ne {α : Type} (k : String) (v : α) (k2 : String) (hk : k2 ≠ k)
    (m : List (String × α)) :
    map_get? (m ++ [(k, v)]) k2 = map_get? m k2 := by
  induction m with
  | nil => simp [map_get?, Ne.symm hk]
  | cons kv t ih =>
    by_cases hk2 : kv.1 = k2 <;> simp [map_get?, hk2, ih]

theorem map_insert_get_self {α : Type} (m : List (String × α)) (k : String) (v : α) :
    map_get? (map_insert m k v) k = some v := by
  unfold map_insert
  by_cases h : (map_get? m k).isSome = true
  · rw [if_pos h, get_map_replace, if_pos h]
  · rw [if_neg h]
    exact get_append_singleton k v m (Option.not_isSome_iff_eq_none.mp h)

theorem map_insert_get_ne {α : Type} (m : List (String × α)) (k : String) (v : α)
    (k2 : String) (hk : k2 ≠ k) : map_get? (map_insert m k v) k2 = map_get? m k2 := by
  unfold map_insert
  by_cases h : (map_get? m k).isSome = true
  · rw [if_pos h]
    exact get_map_replace_ne k v k2 hk m
  · rw [if_neg h]
    exact get_append_ne k v k2 hk m

theorem map_insert_mem {α : Type} {m : List (String × α)} {k : String} {v : α}
    {kv : String × α} (h : kv ∈ map_insert m k v) : kv = (k, v) ∨ kv ∈ m := by
  unfold map_insert at h
  by_cases hany : (map_get? m k).isSome = true
  · rw [if_pos hany] at h
    rcases List.mem_map.mp h with ⟨x, hx, hfx⟩
    by_cases hxk : x.1 = k
    · rw [if_pos hxk] at hfx
      exact Or.inl hfx.symm
    · rw [if_neg hxk] at hfx
      exact Or.inr (hfx ▸ hx)
  · rw [if_neg hany] at h
    rcases List.mem_append.mp h with hm | hm
    · exact Or.inr hm
    · exact Or.inl (List.mem_singleton.mp hm)

theorem map_insert_get_isSome {α : Type} (m : List (String × α)) (k : String) (v : α)
    (k2 : String) (h : (map_get? m k2).isSome = true) :
    (map_get? (map_insert m k v) k2).isSome = true := by
  by_cases hk : k2 = k
  · subst hk
    rw [map_insert_get_self]
    rfl
  · rw [map_insert_get_ne m k v k2 hk]
    exact h

/-- The rows of one `"galaxy:system"` group among a list of export rows. -/
def gmembers (ps : List ExportPlanet) (k : String) : List ExportPlanet :=
  ps.filter fun p => decide (export_group_key p = k)

theorem init_entry_get_timepoint (t : Int) :
    map_get? (init_coord_entry t) "timepoint" = some (JVal.num t) := rfl

theorem init_entry_get_slot (t : Int) (i : Nat) (h1 : 1 ≤ i) (h15 : i ≤ 15) :
    map_get? (init_coord_entry t) (toString i) = some JVal.null := by
  interval_cases i <;> rfl

theorem init_entry_mem (t : Int) {kv : String × JVal} (h : kv ∈ init_coord_entry t) :
    kv = ("timepoint", JVal.num t) ∨
      ∃ i : Nat, 1 ≤ i ∧ i ≤ 15 ∧ kv = (toString i, JVal.null) := by
  have he : init_coord_entry t =
      [("1", JVal.null), ("2", JVal.null), ("3", JVal.null), ("4", JVal.null),
       ("5", JVal.null), ("6", JVal.null), ("7", JVal.null), ("8", JVal.null),
       ("9", JVal.null), ("10", JVal.null), ("11", JVal.null), ("12", JVal.null),
       ("13", JVal.null), ("14", JVal.null), ("15", JVal.null),
       ("timepoint", JVal.num t)] := rfl
  rw [he] at h
  simp only [List.mem_cons, List.not_mem_nil, or_false] at h
  rcases h with h | h | h | h | h | h | h | h | h | h | h | h | h | h | h | h <;>
    subst h <;>
    first
      | exact Or.inl rfl
      | exact Or.inr ⟨1, by omega, by omega, rfl⟩
      | exact Or.inr ⟨2, by omega, by omega, rfl⟩
      | exact Or.inr ⟨3, by omega, by omega, rfl⟩
      | exact Or.inr ⟨4, by omega, by omega, rfl⟩
      | exact Or.inr ⟨5, by omega, by omega, rfl⟩
      | exact Or.inr ⟨6, by omega, by omega, rfl⟩
      | exact Or.inr ⟨7, by omega, by omega, rfl⟩
      | exact Or.inr ⟨8, by omega, by omega, rfl⟩
      | exact Or.inr ⟨9, by omega, by omega, rfl⟩
      | exact Or.inr ⟨10, by omega, by omega, rfl⟩
      | exact Or.inr ⟨11, by omega, by omega, rfl⟩
      | exact Or.inr ⟨12, by omega, by omega, rfl⟩
      | exact Or.inr ⟨13, by omega, by omega, rfl⟩
      | exact Or.inr ⟨14, by omega, by omega, rfl⟩
      | exact Or.inr ⟨15, by omega, by omega, rfl⟩

theorem entry_update_timepoint_get (entry : List (String × JVal)) (tp t0 : Int)
    (h : map_get? entry "timepoint" = some (JVal.num t0)) :
    map_get? (entry_update_timepoint entry tp) "timepoint" =
      some (JVal.num (max t0 tp)) := by
  unfold entry_update_timepoint
  simp only [h]
  by_cases hgt : tp > t0
  · rw [if_pos hgt, map_insert_get_self, max_eq_right (le_of_lt hgt)]
  · rw [if_neg hgt, h, max_eq_left (not_lt.mp hgt)]

theorem entry_update_timepoint_get_ne (entry : List (String × JVal)) (tp : Int)
    (k2 : String) (hk2 : k2 ≠ "timepoint") :
    map_get? (entry_update_timepoint entry tp) k2 = map_get? entry k2 := by
  unfold entry_update_timepoint
  cases hm : map_get? entry "timepoint" with
  | none => rfl
  | some v =>
    cases v with
    | null => rfl
    | slotData d => rfl
    | num cur =>
      show map_get? (if tp > cur then map_insert entry "timepoint" (JVal.num tp) else entry)
          k2 = map_get? entry k2
      by_cases hgt : tp > cur
      · rw [if_pos hgt]
        exact map_insert_get_ne entry "timepoint" (JVal.num tp) k2 hk2
      · rw [if_neg hgt]

theorem entry_update_timepoint_mem (entry : List (String × JVal)) (tp : Int)
    {kv : String × JVal} (h : kv ∈ entry_update_timepoint entry tp) :
    kv ∈ entry ∨ kv.1 = "timepoint" := by
  unfold entry_update_timepoint at h
  cases hm : map_get? entry "timepoint" with
  | none => simp only [hm] at h; exact Or.inl h
  | some v =>
    cases v with
    | null => simp only [hm] at h; exact Or.inl h
    | slotData d => simp only [hm] at h; exact Or.inl h
    | num cur =>
      simp only [hm] at h
      by_cases hgt : tp > cur
      · rw [if_pos hgt] at h
        rcases map_insert_mem h with h2 | h2
        · exact Or.inr (by rw [h2])
        · exact Or.inl h2
      · rw [if_neg hgt] at h
        exact Or.inl h

theorem entry_insert_slot_get_cases (entry : List (String × JVal)) (p : ExportPlanet)
    (k2 : String) :
    map_get? (entry_insert_slot entry p) k2 = map_get? entry k2 ∨
      (p.player_id.isSome = true ∧ p.player_name.isSome = true ∧
        k2 = toString p.planet) := by
  unfold entry_insert_slot
  cases hpi : p.player_id with
  | none => exact Or.inl rfl
  | some pid =>
    cases hpn : p.player_name with
    | none => exact Or.inl rfl
    | some pname =>
      by_cases hk2 : k2 = toString p.planet
      · exact Or.inr ⟨rfl, rfl, hk2⟩
      · exact Or.inl (map_insert_get_ne entry (toString p.planet) _ k2 hk2)

theorem entry_insert_slot_isSome (entry : List (String × JVal)) (p : ExportPlanet)
    (k2 : String) (h : (map_get? entry k2).isSome = true) :
    (map_get? (entry_insert_slot entry p) k2).isSome = true := by
  unfold entry_insert_slot
  cases p.player_id with
  | none => exact h
  | some pid =>
    cases p.player_name with
    | none => exact h
    | some pname => exact map_insert_get_isSome entry (toString p.planet) _ k2 h

theorem entry_insert_slot_get_timepoint (entry : List (String × JVal)) (p : ExportPlanet) :
    map_get? (entry_insert_slot entry p) "timepoint" = map_get? entry "timepoint" := by
  unfold entry_insert_slot
  cases p.player_id with
  | none => rfl
  | some pid =>
    cases p.player_name with
    | none => rfl
    | some pname =>
      exact map_insert_get_ne entry (toString p.planet) _ "timepoint"
        (Ne.symm (int_toString_ne_timepoint p.planet))

theorem entry_insert_slot_mem (entry : List (String × JVal)) (p : ExportPlanet)
    {kv : String × JVal} (h : kv ∈ entry_insert_slot entry p) :
    kv ∈ entry ∨ kv.1 = toString p.planet := by
  unfold entry_insert_slot at h
  cases hpi : p.player_id with
  | none => simp only [hpi] at h; exact Or.inl h
  | some pid =>
    cases hpn : p.player_name with
    | none => simp only [hpi, hpn] at h; exact Or.inl h
    | some pname =>
      simp only [hpi, hpn] at h
      rcases map_insert_mem h with h2 | h2
      · exact Or.inr (by rw [h2])
      · exact Or.inl h2

theorem max?_append_singleton (l : List Int) (a b : Int) (h : l.max? = some a) :
    (l ++ [b]).max? = some (max a b) := by
  cases l with
  | nil => exact absurd h (by simp)
  | cons x t =>
    have hfold : t.foldl max x = a := by
      have : (x :: t).max? = some (t.foldl max x) := rfl
      rw [this] at h
      exact (Option.some.injEq _ _).mp h
    show some ((t ++ [b]).foldl max x) = some (max a b)
    rw [List.foldl_append, hfold]
    rfl

/-- The invariant of the coordinates-map loop: after processing the rows in
`done`, an entry exists exactly for the group keys seen so far; each entry
carries all 15 base slots (each still `Null` unless an occupied member filled
it), the `timepoint` equal to the maximum over the group members seen, and no
keys beyond `timepoint`, the base slots and the members' position keys. -/
def coords_invariant (done : List ExportPlanet)
    (m : List (String × List (String × JVal))) : Prop :=
  ∀ k : String,
    (map_get? m k = none → gmembers done k = []) ∧
    ∀ e, map_get? m k = some e →
      gmembers done k ≠ [] ∧
      (∀ i : Nat, 1 ≤ i → i ≤ 15 → (map_get? e (toString i)).isSome = true) ∧
      (∀ i : Nat, 1 ≤ i → i ≤ 15 →
        map_get? e (toString i) = some JVal.null ∨
          ∃ p ∈ gmembers done k, p.player_id.isSome = true ∧ p.player_name.isSome = true ∧
            toString p.planet = toString i) ∧
      (∃ t, map_get? e "timepoint" = some (JVal.num t) ∧
        ((gmembers done k).map fun p => p.timepoint).max? = some t) ∧
      (∀ kv ∈ e, kv.1 = "timepoint" ∨ (∃ i : Nat, 1 ≤ i ∧ i ≤ 15 ∧ kv.1 = toString i) ∨
        ∃ p ∈ gmembers done k, kv.1 = toString p.planet)

theorem gmembers_append_single (done : List ExportPlanet) (p : ExportPlanet) (k : String) :
    gmembers (done ++ [p]) k =
      gmembers done k ++ (if export_group_key p = k then [p] else []) := by
  unfold gmembers
  rw [List.filter_append]
  congr 1
  by_cases hc : export_group_key p = k <;> simp [hc]

theorem coords_invariant_nil : coords_invariant [] [] := by
  intro k
  constructor
  · intro _
    rfl
  · intro e he
    exact absurd he (by simp [map_get?])

theorem export_step_invariant (done : List ExportPlanet)
    (m : List (String × List (String × JVal))) (p : ExportPlanet)
    (h : coords_invariant done m) : coords_invariant (done ++ [p]) (export_step m p) := by
  intro k
  by_cases hk : k = export_group_key p
  case neg =>
    have hg : map_get? (export_step m p) k = map_get? m k := by
      unfold export_step
      exact map_insert_get_ne _ _ _ _ hk
    have hgm : gmembers (done ++ [p]) k = gmembers done k := by
      rw [gmembers_append_single, if_neg (fun e => hk e.symm)]
      simp
    constructor
    · intro hn
      rw [hgm]
      exact (h k).1 (by rw [← hg]; exact hn)
    · intro e he
      rw [hg] at he
      rw [hgm]
      exact (h k).2 e he
  case pos =>
    subst hk
    have hgm2 : gmembers (done ++ [p]) (export_group_key p) =
        gmembers done (export_group_key p) ++ [p] := by
      rw [gmembers_append_single, if_pos rfl]
    cases hm0 : map_get? m (export_group_key p) with
    | none =>
      have hstep : map_get? (export_step m p) (export_group_key p) =
          some (entry_insert_slot
            (entry_update_timepoint (init_coord_entry p.timepoint) p.timepoint) p) := by
        unfold export_step
        simp only [hm0]
        exact map_insert_get_self _ _ _
      have hupd : entry_update_timepoint (init_coord_entry p.timepoint) p.timepoint =
          init_coord_entry p.timepoint := by
        unfold entry_update_timepoint
        simp only [init_entry_get_timepoint]
        rw [if_neg (lt_irrefl p.timepoint)]
      have hginit : gmembers done (export_group_key p) = [] := (h _).1 hm0
      have hgone : gmembers (done ++ [p]) (export_group_key p) = [p] := by
        rw [hgm2, hginit, List.nil_append]
      constructor
      · intro hn
        rw [hstep] at hn
        exact absurd hn (by simp)
      · intro e he
        rw [hstep, hupd] at he
        have he2 := (Option.some.injEq _ _).mp he
        subst he2
        refine ⟨by rw [hgone]; simp, ?_, ?_, ?_, ?_⟩
        · intro i h1 h15
          exact entry_insert_slot_isSome _ p _
            (by rw [init_entry_get_slot p.timepoint i h1 h15]; rfl)
        · intro i h1 h15
          rcases entry_insert_slot_get_cases (init_coord_entry p.timepoint) p (toString i)
            with hc | ⟨hpid, hpname, hkeq⟩
          · left
            rw [hc]
            exact init_entry_get_slot p.timepoint i h1 h15
          · right
            have hpmem : p ∈ gmembers (done ++ [p]) (export_group_key p) := by
              rw [hgone]
              exact List.mem_singleton_self p
            exact ⟨p, hpmem, hpid, hpname, hkeq.symm⟩
        · refine ⟨p.timepoint, ?_, ?_⟩
          · rw [entry_insert_slot_get_timepoint, init_entry_get_timepoint]
          · rw [hgone]
            rfl
        · intro kv hkv
          rcases entry_insert_slot_mem _ p hkv with hkv2 | hkv2
          · rcases init_entry_mem p.timepoint hkv2 with h3 | ⟨i, hi1, hi15, h3⟩
            · exact Or.inl (by rw [h3])
            · exact Or.inr (Or.inl ⟨i, hi1, hi15, by rw [h3]⟩)
          · have hpmem : p ∈ gmembers (done ++ [p]) (export_group_key p) := by
              rw [hgone]
              exact List.mem_singleton_self p
            exact Or.inr (Or.inr ⟨p, hpmem, hkv2⟩)
    | some e0 =>
      obtain ⟨hne0, hslots0, hnull0, ⟨t0, htp0, hmax0⟩, hkeys0⟩ := (h _).2 e0 hm0
      have hstep : map_get? (export_step m p) (export_group_key p) =
          some (entry_insert_slot (entry_update_timepoint e0 p.timepoint) p) := by
        unfold export_step
        simp only [hm0]
        exact map_insert_get_self _ _ _
      constructor
      · intro hn
        rw [hstep] at hn
        exact absurd hn (by simp)
      · intro e he
        rw [hstep] at he
        have he2 := (Option.some.injEq _ _).mp he
        subst he2
        have hpmem : p ∈ gmembers (done ++ [p]) (export_group_key p) := by
          rw [hgm2]
          exact List.mem_append_right _ (List.mem_singleton_self p)
        refine ⟨by rw [hgm2]; simp, ?_, ?_, ?_, ?_⟩
        · intro i h1 h15
          refine entry_insert_slot_isSome _ p _ ?_
          rw [entry_update_timepoint_get_ne _ _ _ (nat_toString_ne_timepoint i)]
          exact hslots0 i h1 h15
        · intro i h1 h15
          rcases entry_insert_slot_get_cases (entry_update_timepoint e0 p.timepoint) p
            (toString i) with hc | ⟨hpid, hpname, hkeq⟩
          · rw [hc, entry_update_timepoint_get_ne _ _ _ (nat_toString_ne_timepoint i)]
            rcases hnull0 i h1 h15 with hv | ⟨q, hq, hq1, hq2, hq3⟩
            · exact Or.inl hv
            · exact Or.inr ⟨q, by rw [hgm2]; exact List.mem_append_left _ hq, hq1, hq2, hq3⟩
          · exact Or.inr ⟨p, hpmem, hpid, hpname, hkeq.symm⟩
        · refine ⟨max t0 p.timepoint, ?_, ?_⟩
          · rw [entry_insert_slot_get_timepoint]
            exact entry_update_timepoint_get e0 p.timepoint t0 htp0
          · rw [hgm2, List.map_append]
            exact max?_append_singleton _ t0 p.timepoint hmax0
        · intro kv hkv
          rcases entry_insert_slot_mem _ p hkv with hkv2 | hkv2
          · rcases entry_update_timepoint_mem e0 p.timepoint hkv2 with hkv3 | hkv3
            · rcases hkeys0 kv hkv3 with h3 | h3 | ⟨q, hq, hq2⟩
              · exact Or.inl h3
              · exact Or.inr (Or.inl h3)
              · exact Or.inr (Or.inr ⟨q, by rw [hgm2]; exact List.mem_append_left _ hq, hq2⟩)
            · exact Or.inl hkv3
          · exact Or.inr (Or.inr ⟨p, hpmem, hkv2⟩)

theorem export_fold_invariant (l : List ExportPlanet) :
    ∀ (done : List ExportPlanet) (m : List (String × List (String × JVal))),
      coords_invariant done m → coords_invariant (done ++ l) (l.foldl export_step m) := by
  induction l with
  | nil =>
    intro done m h
    simpa using h
  | cons p t ih =>
    intro done m h
    have h2 := ih (done ++ [p]) (export_step m p) (export_step_invariant done m p h)
    rw [List.append_assoc] at h2
    simpa using h2

/-- C4 (amended): the export document is the ordered triple
`[coordinatesMap, playersMap, alliancesMap]`; every coordinates entry holds
the 15 position slots `"1"..="15"` (each `Null` unless an occupied member row
filled it) and a `"timepoint"` equal to the maximum of its group members'
timepoints, and holds no keys besides `"timepoint"`, the 15 base slots and
the position keys of its member rows — so a stored position-0 system-marker
row adds a 16th `"0"` slot.  The alliances map carries the synthetic `"-1"`
sentinel named `"-"` whose timepoint is the maximum over all alliances (0
when there are none). -/
theorem build_export_spec (planets : List ExportPlanet) (players : List ExportPlayer)
    (alliances : List ExportAlliance) :
    (∀ (k : String) (e : List (String × JVal)),
      map_get? (build_export planets players alliances).1 k = some e →
      (∀ i : Nat, 1 ≤ i → i ≤ 15 → (map_get? e (toString i)).isSome = true) ∧
      (∀ i : Nat, 1 ≤ i → i ≤ 15 →
        map_get? e (toString i) = some JVal.null ∨
          ∃ p ∈ gmembers planets k, p.player_id.isSome = true ∧
            p.player_name.isSome = true ∧ toString p.planet = toString i) ∧
      (∃ t, map_get? e "timepoint" = some (JVal.num t) ∧
        ((gmembers planets k).map fun p => p.timepoint).max? = some t) ∧
      (∀ kv ∈ e, kv.1 = "timepoint" ∨ (∃ i : Nat, 1 ≤ i ∧ i ≤ 15 ∧ kv.1 = toString i) ∨
        ∃ p ∈ gmembers planets k, kv.1 = toString p.planet)) ∧
    map_get? (build_export planets players alliances).2.2 "-1" =
      some ⟨"-", ((alliances.map fun a => a.timepoint).max?).getD 0⟩ := by
  constructor
  · intro k e he
    have hinv := export_fold_invariant planets [] [] coords_invariant_nil
    rw [List.nil_append] at hinv
    have hb : (build_export planets players alliances).1 = planets.foldl export_step [] := rfl
    rw [hb] at he
    obtain ⟨_, hs, hn, ht, hk⟩ := (hinv k).2 e he
    exact ⟨hs, hn, ht, hk⟩
  · exact map_insert_get_self _ _ _

/-- Witness for `build_export_spec`: one occupied row at 1:2:3 yields the
entry whose timepoint is the group maximum. -/
theorem build_export_spec_witness :
    ∃ t,
      map_get?
        (entry_insert_slot
          (entry_update_timepoint (init_coord_entry 7) 7)
          { galaxy := 1, system := 2, planet := 3, player_id := some 4,
            player_name := some "Alice", alliance_id := -1, alliance_name := "-",
            has_moon := 0, timepoint := 7 }) "timepoint" = some (JVal.num t) ∧
      ((gmembers
        [{ galaxy := 1, system := 2, planet := 3, player_id := some 4,
           player_name := some "Alice", alliance_id := -1, alliance_name := "-",
           has_moon := 0, timepoint := 7 }] "1:2").map fun p => p.timepoint).max? = some t :=
  ((build_export_spec
      [{ galaxy := 1, system := 2, planet := 3, player_id := some 4,
         player_name := some "Alice", alliance_id := -1, alliance_name := "-",
         has_moon := 0, timepoint := 7 }] [] []).1 "1:2"
    (entry_insert_slot
      (entry_update_timepoint (init_coord_entry 7) 7)
      { galaxy := 1, system := 2, planet := 3, player_id := some 4,
        player_name := some "Alice", alliance_id := -1, alliance_name := "-",
        has_moon := 0, timepoint := 7 }) rfl).2.2.1

/-- Counterexample to C4 as stated: with the stored position-0 system-marker
row of a scanned system (owned by the synthetic `System` player), the
coordinates entry of `1:2` carries a 16th position slot `"0"` and 17 keys in
total — not exactly the 15 slots `1..15` plus the timepoint. -/
theorem build_export_counterexample :
    (map_get?
        (build_export
          [{ galaxy := 1, system := 2, planet := 0, player_id := some 0,
             player_name := some "System", alliance_id := -1, alliance_name := "-",
             has_moon := 0, timepoint := 5 }] [] []).1 "1:2").map
      (fun e => ((e.any fun kv => decide (kv.1 = "0")), e.length)) = some (true, 17) := by
  decide

end Hub
